import Mathlib

/-!
# Verification of the Clinical Trials MCP server core

A shallow embedding of the query-composition, result-projection and
derived-view logic of `src/index.ts` (class `ClinicalTrialsServer`).

Conventions of the embedding:

* JavaScript objects holding optional JSON fields become structures with
  `Option` fields; a chain `a?.b?.c` becomes `Option.bind` / flattened
  `Option` fields.
* JavaScript truthiness tests (`if (args?.x)`, `x || d`) are modelled by
  explicit helpers (`truthyS`, `truthyI`, `orDefaultS`, …): `undefined`,
  `""`, `0` and `false` are falsy, everything else truthy.
* The upstream HTTP client is an oracle argument: a handler receives the
  `UpstreamResp` the network would have produced (or, for the two-phase
  similarity tool, a function from the composed query to a response), so a
  handler is a pure function of its arguments and the oracle.
* Query parameter bags (`params` objects) become association lists in
  insertion order; values keep their JSON type via `ParamVal`.
-/

namespace ClinicalTrials

/-- A JSON scalar value appearing in an upstream query parameter bag. -/
inductive ParamVal where
  | str (s : String)
  | num (n : Int)
  | bool (b : Bool)
deriving DecidableEq, Repr

/-- JS truthiness of a possibly-absent string (`undefined` and `""` are falsy). -/
def truthyS (o : Option String) : Bool :=
  match o with
  | some s => s ≠ ""
  | none => false

/-- JS truthiness of a possibly-absent number (`undefined` and `0` are falsy). -/
def truthyI (o : Option Int) : Bool :=
  match o with
  | some n => n ≠ 0
  | none => false

/-- JS truthiness of a possibly-absent natural number. -/
def truthyN (o : Option Nat) : Bool :=
  match o with
  | some n => n ≠ 0
  | none => false

/-- JS `x || d` for a possibly-absent string `x`. -/
def orDefaultS (o : Option String) (d : String) : String :=
  match o with
  | some s => if s ≠ "" then s else d
  | none => d

/-- JS `args?.pageSize || 10`: the only page-size handling the source performs. -/
def pageSizeOrDefault (o : Option Int) : Int :=
  match o with
  | some n => if n ≠ 0 then n else 10
  | none => 10

/-- `if (args?.x) params[k] = args.x` for a string argument. -/
def optStr (k : String) (o : Option String) : List (String × ParamVal) :=
  match o with
  | some s => if s ≠ "" then [(k, ParamVal.str s)] else []
  | none => []

/-- One study location (`contactsLocationsModule.locations[i]`). -/
structure Location where
  facility : String
  city : String
  state : Option String
  country : String
deriving DecidableEq, Repr

/-- `sponsorCollaboratorsModule.leadSponsor`. -/
structure Sponsor where
  name : String
  sponsorClass : String
deriving DecidableEq, Repr

/-- `eligibilityModule`; every field may be missing in the raw JSON, the
source only reaches them through optional chaining. -/
structure Eligibility where
  eligibilityCriteria : Option String
  healthyVolunteers : Option Bool
  sex : Option String
  minimumAge : Option String
  maximumAge : Option String
deriving DecidableEq, Repr

/-- A raw trial record (the `Study` interface), with the optional-module
chains of the source flattened into `Option` fields: e.g. `phases` stands
for `protocolSection.designModule?.phases`. -/
structure Study where
  nctId : String
  briefTitle : String
  officialTitle : Option String
  overallStatus : String
  startDate : Option String
  primaryCompletionDate : Option String
  phases : Option (List String)
  studyType : Option String
  leadSponsor : Option Sponsor
  conditions : Option (List String)
  locations : Option (List Location)
  eligibility : Option Eligibility
deriving DecidableEq, Repr

/-- Outcome of one upstream `GET /studies`: the parsed body, or an axios
failure (transport error / non-2xx). -/
inductive UpstreamResp where
  | ok (studies : List Study) (totalCount : Nat)
  | fail (msg : String)
deriving DecidableEq, Repr

/-- Result of one tool call: a thrown `McpError` for bad client arguments,
a `{content, isError: true}` diagnostic result, or a successful payload. -/
inductive ToolResult (α : Type) where
  | clientError (msg : String)
  | errorResult (msg : String)
  | ok (data : α)
deriving DecidableEq, Repr

/-- `formatStudySummary`'s output shape. -/
structure StudySummary where
  nctId : String
  title : String
  status : String
  phase : List String
  studyType : String
  sponsor : String
  conditions : List String
  startDate : String
deriving DecidableEq, Repr

/-- `formatStudySummary` (src/index.ts lines 1011-1022). -/
def formatStudySummary (st : Study) : StudySummary :=
  { nctId := st.nctId
    title := st.briefTitle
    status := st.overallStatus
    phase := st.phases.getD ["Not specified"]
    studyType := orDefaultS st.studyType "Unknown"
    sponsor := orDefaultS (st.leadSponsor.map (fun sp => sp.name)) "Not specified"
    conditions := (st.conditions.getD []).take 3
    startDate := orDefaultS st.startDate "Not specified" }

/-- The NCT identifier validator: the regex `/^NCT\d{8}$/` of
`handleGetStudyDetails` and `handleGetSimilarStudies`. -/
def isValidNctId (s : String) : Bool :=
  match s.data with
  | 'N' :: 'C' :: 'T' :: rest => rest.length == 8 && rest.all Char.isDigit
  | _ => false

example : isValidNctId "NCT00000419" = true := by decide
example : isValidNctId "NCT0000041" = false := by decide
example : isValidNctId "NCT000004190" = false := by decide
example : isValidNctId "NCT0000041A" = false := by decide
example : isValidNctId "nct00000419" = false := by decide

/-- The characters of the ECMAScript `\s` class (WhiteSpace ∪ LineTerminator). -/
def jsWhitespaceChars : List Char :=
  [' ', '\t', '\n', '\r', '\x0b', '\x0c',
   '\u00a0', '\u1680', '\u2000', '\u2001', '\u2002',
   '\u2003', '\u2004', '\u2005', '\u2006', '\u2007',
   '\u2008', '\u2009', '\u200a', '\u2028', '\u2029',
   '\u202f', '\u205f', '\u3000', '\ufeff']

/-- Whether a character matches the ECMAScript `\s` character class. -/
def isJsWS (c : Char) : Bool :=
  jsWhitespaceChars.contains c

/-- Worker for `String.split(/\\s+/)`. While `skipping` we are inside a
maximal whitespace run already matched as a separator; otherwise `cur`
holds the reversed characters of the token being built. -/
def wsSplitAux (skipping : Bool) (cur : List Char) (l : List Char) : List (List Char) :=
  match l with
  | [] => if skipping then [[]] else [cur.reverse]
  | c :: cs =>
    if isJsWS c then
      if skipping then wsSplitAux true [] cs
      else cur.reverse :: wsSplitAux true [] cs
    else wsSplitAux false (c :: cur) cs

/-- JavaScript `s.split(/\\s+/)`: pieces between maximal whitespace runs,
including the empty leading/trailing pieces the regex split produces. -/
def jsSplitWhitespace (s : String) : List String :=
  (wsSplitAux false [] s.data).map (fun cs => String.mk cs)

example : jsSplitWhitespace "a  b" = ["a", "b"] := by decide
example : jsSplitWhitespace " a" = ["", "a"] := by decide
example : jsSplitWhitespace "a " = ["a", ""] := by decide
example : jsSplitWhitespace "  " = ["", ""] := by decide
example : jsSplitWhitespace "" = [""] := by decide
example : jsSplitWhitespace "no peanut" = ["no", "peanut"] := by decide

/-- JavaScript `s.toLowerCase()` (character-wise lowering). -/
def jsToLower (s : String) : String :=
  String.mk (s.data.map Char.toLower)

/-- `needle` occurs as a contiguous run inside `hay`. -/
def listContains (hay needle : List Char) : Bool :=
  match hay with
  | [] => needle.isEmpty
  | _ :: t => needle.isPrefixOf hay || listContains t needle

/-- JavaScript `hay.includes(needle)`: substring containment. -/
def strIncludes (hay needle : String) : Bool :=
  listContains hay.data needle.data

/-- `args.exclusionKeywords.toLowerCase().split(/\s+/)` of
`handleSearchByEligibilityCriteria`. -/
def exclusionWords (kw : String) : List String :=
  jsSplitWhitespace (jsToLower kw)

/-- `study.protocolSection.eligibilityModule?.eligibilityCriteria?.toLowerCase() || ''`. -/
def lowerCriteria (st : Study) : String :=
  orDefaultS ((st.eligibility.bind (fun e => e.eligibilityCriteria)).map jsToLower) ""

/-- `exclusionWords.some(word => eligibilityCriteria.includes(word))`. -/
def droppedByExclusion (words : List String) (st : Study) : Bool :=
  words.any (fun w => strIncludes (lowerCriteria st) w)

/-- The local exclusion-keyword filter of `handleSearchByEligibilityCriteria`
(src/index.ts lines 1706-1712). -/
def exclusionFilter (kw : String) (studies : List Study) : List Study :=
  studies.filter (fun st => !droppedByExclusion (exclusionWords kw) st)

/-- C5: For every list of trial records and every exclusion-keyword phrase,
the eligibility exclusion filter is idempotent, and it keeps the surviving
records in their original relative order (its output is a sublist of its
input). -/
theorem exclusionFilter_idempotent_orderPreserving (kw : String) (studies : List Study) :
    exclusionFilter kw (exclusionFilter kw studies) = exclusionFilter kw studies ∧
    List.Sublist (exclusionFilter kw studies) studies := by
  refine ⟨?_, List.filter_sublist _⟩
  apply List.filter_eq_self.mpr
  intro st hst
  simp only [exclusionFilter] at hst
  exact (List.mem_filter.mp hst).2

theorem listContains_nil (hay : List Char) : listContains hay [] = true := by
  cases hay with
  | nil => rfl
  | cons c t => simp [listContains, List.isPrefixOf]

theorem strIncludes_emptyNeedle (hay : String) : strIncludes hay "" = true :=
  listContains_nil hay.data

theorem toLower_of_isJsWS {c : Char} (h : isJsWS c = true) : Char.toLower c = c := by
  have hm : c ∈ jsWhitespaceChars := by
    simpa [isJsWS] using h
  fin_cases hm <;> decide

theorem wsSplitAux_skip_ws {c : Char} (h : isJsWS c = true) (cur cs : List Char) :
    wsSplitAux true cur (c :: cs) = wsSplitAux true [] cs := by
  simp [wsSplitAux, h]

theorem wsSplitAux_go_ws {c : Char} (h : isJsWS c = true) (cur cs : List Char) :
    wsSplitAux false cur (c :: cs) = cur.reverse :: wsSplitAux true [] cs := by
  simp [wsSplitAux, h]

theorem wsSplitAux_not_ws {c : Char} (h : isJsWS c = false) (skipping : Bool) (cur cs : List Char) :
    wsSplitAux skipping cur (c :: cs) = wsSplitAux false (c :: cur) cs := by
  simp [wsSplitAux, h]

theorem nil_mem_wsSplitAux_head_ws {a : Char} (as : List Char) (h : isJsWS a = true) :
    [] ∈ wsSplitAux false [] (a :: as) := by
  rw [wsSplitAux_go_ws h]
  exact List.mem_cons_self _ _

theorem nil_mem_wsSplitAux_getLast_ws (l : List Char) :
    ∀ (skipping : Bool) (cur : List Char) (c : Char),
      l.getLast? = some c → isJsWS c = true → [] ∈ wsSplitAux skipping cur l := by
  induction l with
  | nil => intro _ _ c h _; simp at h
  | cons a as ih =>
    intro skipping cur c h hws
    cases as with
    | nil =>
      simp only [List.getLast?_singleton, Option.some.injEq] at h
      subst h
      cases skipping
      · rw [wsSplitAux_go_ws hws]
        simp [wsSplitAux]
      · rw [wsSplitAux_skip_ws hws]
        simp [wsSplitAux]
    | cons b bs =>
      have h' : (b :: bs).getLast? = some c := by
        rw [← h, List.getLast?_cons_cons]
      cases hca : isJsWS a with
      | true =>
        cases skipping
        · rw [wsSplitAux_go_ws hca]
          exact List.mem_cons_of_mem _ (ih true [] c h' hws)
        · rw [wsSplitAux_skip_ws hca]
          exact ih true [] c h' hws
      | false =>
        rw [wsSplitAux_not_ws hca]
        exact ih false (a :: cur) c h' hws

structure EligArgs where
  minAge : Option String
  maxAge : Option String
  sex : Option String
  healthyVolunteers : Option Bool
  condition : Option String
  inclusionKeywords : Option String
  exclusionKeywords : Option String
  pageSize : Option Int
deriving DecidableEq, Repr

/-- An `search_by_eligibility_criteria` call with no arguments supplied. -/
def emptyEligArgs : EligArgs :=
  ⟨none, none, none, none, none, none, none, none⟩

/-- The upstream query composed by `handleSearchByEligibilityCriteria`
(src/index.ts lines 1670-1697). `healthyVolunteers` is attached on an
`!== undefined` test, not on truthiness. -/
def eligibilityParams (args : EligArgs) : List (String × ParamVal) :=
  [("format", ParamVal.str "json"), ("pageSize", ParamVal.num (pageSizeOrDefault args.pageSize))]
  ++ optStr "filter.minimumAge" args.minAge
  ++ optStr "filter.maximumAge" args.maxAge
  ++ optStr "filter.sex" args.sex
  ++ (match args.healthyVolunteers with
      | some b => [("filter.healthyVolunteers", ParamVal.bool b)]
      | none => [])
  ++ optStr "query.cond" args.condition
  ++ optStr "query.eligibility" args.inclusionKeywords

/-- `eligibilityModule?.eligibilityCriteria?.substring(0, 200) + '...' || 'Not available'`
(src/index.ts line 1721). In JavaScript `+` binds tighter than `||`: for an
absent criteria text, `undefined + '...'` is the string `"undefined..."`,
so the left operand of `||` is always non-empty and the fallback is dead. -/
def criteriaPreview (crit : Option String) : String :=
  orDefaultS
    (some ((match crit with
            | some t => String.mk (t.data.take 200)
            | none => "undefined") ++ "..."))
    "Not available"

/-- The per-study eligibility block produced by `handleSearchByEligibilityCriteria`. -/
structure EligView where
  summary : StudySummary
  sex : String
  minimumAge : String
  maximumAge : String
  healthyVolunteers : Bool
  criteriaPreview : String
deriving DecidableEq, Repr

def eligibilityView (st : Study) : EligView :=
  { summary := formatStudySummary st
    sex := orDefaultS (st.eligibility.bind (fun e => e.sex)) "Unknown"
    minimumAge := orDefaultS (st.eligibility.bind (fun e => e.minimumAge)) "Not specified"
    maximumAge := orDefaultS (st.eligibility.bind (fun e => e.maximumAge)) "Not specified"
    healthyVolunteers := (st.eligibility.bind (fun e => e.healthyVolunteers)).getD false
    criteriaPreview := criteriaPreview (st.eligibility.bind (fun e => e.eligibilityCriteria)) }

/-- The page after the optional local exclusion-keyword filtering. -/
def eligFiltered (args : EligArgs) (studies : List Study) : List Study :=
  if truthyS args.exclusionKeywords then
    exclusionFilter (args.exclusionKeywords.getD "") studies
  else studies

structure EligOutput where
  totalCount : Nat
  resultsShown : Nat
  studies : List EligView
deriving DecidableEq, Repr

/-- `handleSearchByEligibilityCriteria` after the upstream call, as a function
of the upstream response (src/index.ts lines 1699-1743). -/
def handleSearchByEligibilityCriteria (args : EligArgs) (resp : UpstreamResp) :
    ToolResult EligOutput :=
  match resp with
  | UpstreamResp.fail m => ToolResult.errorResult ("Clinical Trials API error: " ++ m)
  | UpstreamResp.ok studies total =>
    ToolResult.ok
      { totalCount := total
        resultsShown := ((eligFiltered args studies).map eligibilityView).length
        studies := (eligFiltered args studies).map eligibilityView }

theorem append_dots_ne_empty (a : String) : a ++ "..." ≠ "" := by
  intro h
  have h2 : (a ++ "...").data = ([] : List Char) := by rw [h]
  rw [String.data_append] at h2
  exact absurd (List.append_eq_nil.mp h2).2 (by decide)

/-- A record whose eligibility module is entirely absent. -/
def studyNoEligibility : Study :=
  { nctId := "NCT00000001"
    briefTitle := "Example"
    officialTitle := none
    overallStatus := "RECRUITING"
    startDate := none
    primaryCompletionDate := none
    phases := none
    studyType := none
    leadSponsor := none
    conditions := none
    locations := none
    eligibility := none }

/-- C2 (code bug at src/index.ts line 1721): for a record whose
eligibility-criteria text is absent, `criteriaPreview` is the string
`"undefined..."`, not the documented default `'Not available'` — the
`|| 'Not available'` fallback is unreachable because `undefined + '...'`
is already a non-empty string. For present text the preview is the first
200 characters with `'...'` appended. -/
theorem criteriaPreview_missing_not_defaulted :
    criteriaPreview none = "undefined..." ∧
    criteriaPreview none ≠ "Not available" ∧
    (eligibilityView studyNoEligibility).criteriaPreview = "undefined..." ∧
    (∀ t : String, criteriaPreview (some t) = String.mk (t.data.take 200) ++ "...") := by
  refine ⟨by decide, by decide, by decide, ?_⟩
  intro t
  show orDefaultS (some (String.mk (t.data.take 200) ++ "...")) "Not available" = _
  simp only [orDefaultS]
  exact if_pos (append_dots_ne_empty _)

/-- C4: the totalCount reported by the eligibility-criteria tool equals the
totalCount of the upstream response, for every argument bag — in particular
unchanged by local exclusion-keyword filtering, which only shrinks the
displayed study list and `resultsShown`. -/
theorem eligibility_totalCount_passthrough (args : EligArgs) (studies : List Study)
    (total : Nat) (out : EligOutput)
    (h : handleSearchByEligibilityCriteria args (UpstreamResp.ok studies total) =
      ToolResult.ok out) :
    out.totalCount = total ∧ out.resultsShown = out.studies.length ∧
    out.studies.length ≤ studies.length := by
  simp only [handleSearchByEligibilityCriteria, ToolResult.ok.injEq] at h
  subst h
  refine ⟨rfl, rfl, ?_⟩
  simp only [List.length_map]
  unfold eligFiltered
  by_cases ht : truthyS args.exclusionKeywords = true
  · simp only [ht, if_true]
    exact List.length_filter_le _ _
  · simp only [ht, if_false]
    exact Nat.le_refl _

theorem eligibility_totalCount_passthrough_witness :
    (({ totalCount := 450, resultsShown := 0, studies := [] } : EligOutput).totalCount = 450) ∧
    (({ totalCount := 450, resultsShown := 0, studies := [] } : EligOutput).resultsShown =
      ({ totalCount := 450, resultsShown := 0, studies := [] } : EligOutput).studies.length) ∧
    (({ totalCount := 450, resultsShown := 0, studies := [] } : EligOutput).studies.length ≤
      ([] : List Study).length) :=
  eligibility_totalCount_passthrough emptyEligArgs [] 450 _ rfl

theorem data_map_toLower (kw : String) : (jsToLower kw).data = kw.data.map Char.toLower :=
  rfl

theorem nil_mem_lowered_split (kw : String) (hne : kw ≠ "")
    (hws : (∃ c, kw.data.head? = some c ∧ isJsWS c = true) ∨
           (∃ c, kw.data.getLast? = some c ∧ isJsWS c = true) ∨
           (∀ c ∈ kw.data, isJsWS c = true)) :
    [] ∈ wsSplitAux false [] ((jsToLower kw).data) := by
  rw [data_map_toLower]
  have hdata : kw.data ≠ [] := by
    intro hd
    apply hne
    obtain ⟨d⟩ := kw
    simp only at hd
    subst hd
    rfl
  rcases hws with ⟨c, hc, hcws⟩ | ⟨c, hc, hcws⟩ | hall
  · cases hd : kw.data with
    | nil => exact absurd hd hdata
    | cons a as =>
      rw [hd] at hc
      simp only [List.head?_cons, Option.some.injEq] at hc
      subst hc
      rw [List.map_cons, toLower_of_isJsWS hcws]
      exact nil_mem_wsSplitAux_head_ws _ hcws
  · apply nil_mem_wsSplitAux_getLast_ws _ false [] (Char.toLower c)
    · rw [List.getLast?_map, hc]
      rfl
    · rw [toLower_of_isJsWS hcws]
      exact hcws
  · cases hd : kw.data with
    | nil => exact absurd hd hdata
    | cons a as =>
      have haws : isJsWS a = true := hall a (by rw [hd]; exact List.mem_cons_self _ _)
      rw [List.map_cons, toLower_of_isJsWS haws]
      exact nil_mem_wsSplitAux_head_ws _ haws

/-- C9: a non-empty exclusion-keyword phrase that is whitespace-only or has
leading or trailing whitespace splits into a token list containing the empty
string; every criteria text contains the empty string, so the local exclusion
filter drops every record and the eligibility tool shows an empty study list
regardless of the fetched records. -/
theorem exclusion_empty_token_drops_all (args : EligArgs) (kw : String)
    (studies : List Study) (total : Nat) (out : EligOutput)
    (hkw : args.exclusionKeywords = some kw) (hne : kw ≠ "")
    (hws : (∃ c, kw.data.head? = some c ∧ isJsWS c = true) ∨
           (∃ c, kw.data.getLast? = some c ∧ isJsWS c = true) ∨
           (∀ c ∈ kw.data, isJsWS c = true))
    (h : handleSearchByEligibilityCriteria args (UpstreamResp.ok studies total) =
      ToolResult.ok out) :
    "" ∈ exclusionWords kw ∧ out.studies = [] ∧ out.resultsShown = 0 := by
  have hmem : ("" : String) ∈ exclusionWords kw := by
    unfold exclusionWords jsSplitWhitespace
    exact List.mem_map.mpr ⟨[], nil_mem_lowered_split kw hne hws, rfl⟩
  have hdrop : ∀ st : Study, droppedByExclusion (exclusionWords kw) st = true := by
    intro st
    unfold droppedByExclusion
    exact List.any_eq_true.mpr ⟨"", hmem, strIncludes_emptyNeedle _⟩
  have hfil : eligFiltered args studies = [] := by
    unfold eligFiltered
    rw [hkw]
    have ht : truthyS (some kw) = true := by
      simp [truthyS, hne]
    rw [ht, if_pos rfl]
    unfold exclusionFilter
    apply List.filter_eq_nil_iff.mpr
    intro st _
    simp only [Option.getD_some, hdrop st, Bool.not_true, Bool.false_eq_true,
      not_false_eq_true]
  simp only [handleSearchByEligibilityCriteria, ToolResult.ok.injEq] at h
  subst h
  simp [hfil, hmem]

/-- A record whose criteria text would survive any reasonable keyword filter. -/
def studyPlainCriteria : Study :=
  { studyNoEligibility with
    nctId := "NCT00000002"
    eligibility := some ⟨some "Adults aged 18 to 65.", some true, some "ALL", none, none⟩ }

theorem exclusion_empty_token_drops_all_witness :
    ("" ∈ exclusionWords " x") ∧
    (({ totalCount := 7, resultsShown := 0, studies := [] } : EligOutput).studies = []) ∧
    (({ totalCount := 7, resultsShown := 0, studies := [] } : EligOutput).resultsShown = 0) :=
  exclusion_empty_token_drops_all
    { emptyEligArgs with exclusionKeywords := some " x" } " x"
    [studyPlainCriteria] 7 _ rfl (by decide)
    (Or.inl ⟨' ', by decide, by decide⟩) rfl

structure SearchStudiesArgs where
  query : Option String
  condition : Option String
  intervention : Option String
  location : Option String
  phase : Option String
  status : Option String
  sex : Option String
  age : Option String
  pageSize : Option Int
deriving DecidableEq, Repr

/-- A `search_studies` call with no arguments supplied. -/
def emptySearchStudiesArgs : SearchStudiesArgs :=
  ⟨none, none, none, none, none, none, none, none, none⟩

/-- The upstream query composed by `handleSearchStudies`
(src/index.ts lines 720-757). -/
def searchStudiesParams (args : SearchStudiesArgs) : List (String × ParamVal) :=
  [("format", ParamVal.str "json"), ("pageSize", ParamVal.num (pageSizeOrDefault args.pageSize))]
  ++ optStr "query.term" args.query
  ++ optStr "query.cond" args.condition
  ++ optStr "query.intr" args.intervention
  ++ optStr "query.locn" args.location
  ++ optStr "filter.phase" args.phase
  ++ optStr "filter.overallStatus" args.status
  ++ optStr "filter.sex" args.sex
  ++ optStr "filter.stdAge" args.age

structure SearchOutput where
  totalCount : Nat
  resultsShown : Nat
  studies : List StudySummary
deriving DecidableEq, Repr

/-- `handleSearchStudies` after the upstream call (src/index.ts lines 759-786). -/
def handleSearchStudies (args : SearchStudiesArgs) (resp : UpstreamResp) :
    ToolResult SearchOutput :=
  match resp with
  | UpstreamResp.fail m => ToolResult.errorResult ("Clinical Trials API error: " ++ m)
  | UpstreamResp.ok studies total =>
    ToolResult.ok
      { totalCount := total
        resultsShown := (studies.map formatStudySummary).length
        studies := studies.map formatStudySummary }

structure RecruitingArgs where
  condition : Option String
  location : Option String
  ageGroup : Option String
  pageSize : Option Int
deriving DecidableEq, Repr

/-- The upstream query composed by `handleGetRecruitingStudies`
(src/index.ts lines 1192-1209): the RECRUITING status filter is always
injected, the page size is `args?.pageSize || 10`. -/
def recruitingParams (args : RecruitingArgs) : List (String × ParamVal) :=
  [("format", ParamVal.str "json"),
   ("pageSize", ParamVal.num (pageSizeOrDefault args.pageSize)),
   ("filter.overallStatus", ParamVal.str "RECRUITING")]
  ++ optStr "query.cond" args.condition
  ++ optStr "query.locn" args.location
  ++ optStr "filter.stdAge" args.ageGroup

/-- C1 (code bug): the handlers never clamp or reject an out-of-range
pageSize. `args?.pageSize || 10` only replaces the falsy `0`; a value
above the tool's declared maximum (200 > 100) or a negative value (-5)
is placed into the upstream query unchanged and the network call is then
made with it — no client error is raised. -/
theorem pageSize_forwarded_unclamped :
    (("pageSize", ParamVal.num 200) ∈
      searchStudiesParams { emptySearchStudiesArgs with pageSize := some 200 }) ∧
    (("pageSize", ParamVal.num (-5)) ∈
      recruitingParams ⟨none, none, none, some (-5)⟩) ∧
    (handleSearchStudies { emptySearchStudiesArgs with pageSize := some 200 }
        (UpstreamResp.ok [] 0) =
      ToolResult.ok { totalCount := 0, resultsShown := 0, studies := [] }) ∧
    pageSizeOrDefault (some 200) = 200 ∧ pageSizeOrDefault (some (-5)) = -5 := by
  decide

structure IntlArgs where
  condition : Option String
  excludeCountry : Option String
  includeCountry : Option String
  minCountries : Option Nat
  phase : Option String
  pageSize : Option Int
deriving DecidableEq, Repr

/-- The upstream query composed by `handleSearchInternationalStudies`
(src/index.ts lines 1839-1854). -/
def intlParams (args : IntlArgs) : List (String × ParamVal) :=
  [("format", ParamVal.str "json"), ("pageSize", ParamVal.num (pageSizeOrDefault args.pageSize))]
  ++ optStr "query.cond" args.condition
  ++ optStr "filter.phase" args.phase
  ++ optStr "query.locn" args.includeCountry

/-- `new Set(locations.map(loc => loc.country))`: the distinct countries of a
record's location list. -/
def studyCountries (st : Study) : List String :=
  ((st.locations.getD []).map (fun l => l.country)).dedup

/-- The per-record predicate of the international filter
(src/index.ts lines 1862-1878). -/
def intlKeep (args : IntlArgs) (st : Study) : Bool :=
  if truthyN args.minCountries &&
      decide ((studyCountries st).length < args.minCountries.getD 0) then
    false
  else if truthyS args.excludeCountry &&
      decide (args.excludeCountry.getD "" ∈ studyCountries st) then
    false
  else decide (2 ≤ (studyCountries st).length)

/-- `studies.filter(...)` of the international-studies tool. -/
def intlFiltered (args : IntlArgs) (studies : List Study) : List Study :=
  studies.filter (fun st => intlKeep args st)

theorem intlKeep_iff (args : IntlArgs) (st : Study)
    (hex : ∀ c, args.excludeCountry = some c → c ≠ "") :
    intlKeep args st = true ↔
      (2 ≤ (studyCountries st).length ∧
       (∀ m, args.minCountries = some m → m ≤ (studyCountries st).length) ∧
       (∀ c, args.excludeCountry = some c → c ∉ studyCountries st)) := by
  unfold intlKeep
  cases hmc : args.minCountries with
  | none =>
    cases hec : args.excludeCountry with
    | none => simp [truthyN, truthyS]
    | some c =>
      have hc : c ≠ "" := hex c hec
      by_cases hmem : c ∈ studyCountries st
      · simp [truthyN, truthyS, hc, hmem]
      · simp [truthyN, truthyS, hc, hmem]
  | some m =>
    by_cases hm0 : m = 0
    · subst hm0
      cases hec : args.excludeCountry with
      | none => simp [truthyN, truthyS]
      | some c =>
        have hc : c ≠ "" := hex c hec
        by_cases hmem : c ∈ studyCountries st
        · simp [truthyN, truthyS, hc, hmem]
        · simp [truthyN, truthyS, hc, hmem]
    · by_cases hlt : (studyCountries st).length < m
      · have hcond : (truthyN (some m) &&
            decide ((studyCountries st).length < (some m : Option Nat).getD 0)) = true := by
          simp [truthyN, hm0, hlt]
        rw [hcond]
        show (false = true) ↔ _
        simp only [Bool.false_eq_true, false_iff]
        rintro ⟨-, h2, -⟩
        exact absurd (h2 m rfl) (by omega)
      · cases hec : args.excludeCountry with
        | none =>
          simp [truthyN, truthyS, hm0, hlt]
          omega
        | some c =>
          have hc : c ≠ "" := hex c hec
          by_cases hmem : c ∈ studyCountries st
          · simp [truthyN, truthyS, hm0, hlt, hc, hmem]
          · simp [truthyN, truthyS, hm0, hlt, hc, hmem]
            omega

/-- C3: a fetched record appears in the international-studies output iff its
distinct-country set has size at least 2, meets `minCountries` when that
argument is given, and avoids `excludeCountry` when that argument is given;
in particular a single-country record is always excluded, and a 3-country
record is excluded under `minCountries = 4`. -/
theorem international_membership (args : IntlArgs) (studies : List Study) (st : Study)
    (hex : ∀ c, args.excludeCountry = some c → c ≠ "") :
    (st ∈ intlFiltered args studies ↔
      st ∈ studies ∧ 2 ≤ (studyCountries st).length ∧
      (∀ m, args.minCountries = some m → m ≤ (studyCountries st).length) ∧
      (∀ c, args.excludeCountry = some c → c ∉ studyCountries st)) ∧
    ((studyCountries st).length = 1 → intlKeep args st = false) ∧
    (args.minCountries = some 4 → (studyCountries st).length = 3 →
      intlKeep args st = false) := by
  refine ⟨?_, ?_, ?_⟩
  · rw [intlFiltered, List.mem_filter, intlKeep_iff args st hex]
  · intro h1
    cases hk : intlKeep args st with
    | false => rfl
    | true =>
      have := (intlKeep_iff args st hex).mp hk
      omega
  · intro hmc h3
    cases hk : intlKeep args st with
    | false => rfl
    | true =>
      have h := (intlKeep_iff args st hex).mp hk
      have := h.2.1 4 hmc
      omega

/-- A record with locations in exactly three distinct countries. -/
def studyThreeCountries : Study :=
  { studyNoEligibility with
    nctId := "NCT00000003"
    locations := some
      [⟨"Site A", "Paris", none, "France"⟩,
       ⟨"Site B", "Berlin", none, "Germany"⟩,
       ⟨"Site C", "Madrid", none, "Spain"⟩] }

theorem international_membership_witness :
    intlKeep ⟨none, none, none, some 4, none, none⟩ studyThreeCountries = false :=
  (international_membership ⟨none, none, none, some 4, none, none⟩
    [studyThreeCountries] studyThreeCountries
    (fun c h => nomatch h)).2.2 rfl (by decide)

structure DetailsArgs where
  nctId : Option String
deriving DecidableEq, Repr

/-- The upstream query of `handleGetStudyDetails` (src/index.ts lines 796-803). -/
def detailsParams (nctId : String) : List (String × ParamVal) :=
  [("format", ParamVal.str "json"), ("query.term", ParamVal.str nctId),
   ("filter.ids", ParamVal.str nctId), ("pageSize", ParamVal.num 1)]

/-- `formatDetailedStudy`'s output shape. -/
structure DetailedStudy where
  nctId : String
  briefTitle : String
  officialTitle : Option String
  overallStatus : String
  startDate : Option String
  primaryCompletionDate : Option String
  studyType : Option String
  phases : Option (List String)
  sponsor : Option Sponsor
  conditions : Option (List String)
  eligibility : Option Eligibility
  locations : Option (List Location)
deriving DecidableEq, Repr

/-- `formatDetailedStudy` (src/index.ts lines 1024-1045). -/
def formatDetailedStudy (st : Study) : DetailedStudy :=
  { nctId := st.nctId
    briefTitle := st.briefTitle
    officialTitle := st.officialTitle
    overallStatus := st.overallStatus
    startDate := st.startDate
    primaryCompletionDate := st.primaryCompletionDate
    studyType := st.studyType
    phases := st.phases
    sponsor := st.leadSponsor
    conditions := st.conditions
    eligibility := st.eligibility
    locations := st.locations.map (fun l => l.take 10) }

/-- `handleGetStudyDetails` (src/index.ts lines 789-845): identifier
validation happens before the request, so the oracle is consulted only on
the else-branch; an axios failure collapses into its diagnostic message. -/
def handleGetStudyDetails (args : DetailsArgs) (resp : UpstreamResp) :
    ToolResult DetailedStudy :=
  if !(truthyS args.nctId && isValidNctId (args.nctId.getD "")) then
    ToolResult.clientError "Valid NCT ID is required (format: NCT########)"
  else
    match resp with
    | UpstreamResp.fail m => ToolResult.errorResult ("Clinical Trials API error: " ++ m)
    | UpstreamResp.ok [] _ =>
      ToolResult.errorResult ("No study found with NCT ID: " ++ args.nctId.getD "")
    | UpstreamResp.ok (st :: _) _ => ToolResult.ok (formatDetailedStudy st)

structure SimilarArgs where
  nctId : Option String
  similarityType : Option String
  pageSize : Option Int
deriving DecidableEq, Repr

/-- The reference-lookup query of `handleGetSimilarStudies`
(src/index.ts lines 1532-1538). -/
def similarRefParams (nctId : String) : List (String × ParamVal) :=
  [("format", ParamVal.str "json"), ("query.term", ParamVal.str nctId),
   ("pageSize", ParamVal.num 1)]

/-- The `switch (similarityType)` of `handleGetSimilarStudies`
(src/index.ts lines 1558-1577): the parameter derived from the reference
record, attached only when the selected field is truthy; no case matches
any other similarity type. -/
def similarityExtraParams (simType : String) (ref : Study) : List (String × ParamVal) :=
  if simType = "CONDITION" then optStr "query.cond" (ref.conditions.getD []).head?
  else if simType = "SPONSOR" then optStr "query.spons" (ref.leadSponsor.map (fun sp => sp.name))
  else if simType = "PHASE" then optStr "filter.phase" (ref.phases.getD []).head?
  else []

/-- The full secondary query of `handleGetSimilarStudies`. -/
def similaritySearchParams (args : SimilarArgs) (ref : Study) : List (String × ParamVal) :=
  [("format", ParamVal.str "json"), ("pageSize", ParamVal.num (pageSizeOrDefault args.pageSize))]
  ++ similarityExtraParams (orDefaultS args.similarityType "CONDITION") ref

structure SimilarOutput where
  refNctId : String
  refTitle : String
  similarityType : String
  totalCount : Nat
  resultsShown : Nat
  similarStudies : List StudySummary
deriving DecidableEq, Repr

/-- `handleGetSimilarStudies` (src/index.ts lines 1525-1613): validation,
reference lookup, secondary query derived from the reference record, and
exclusion of the reference study from the result list. -/
def handleGetSimilarStudies (args : SimilarArgs) (refResp : UpstreamResp)
    (second : List (String × ParamVal) → UpstreamResp) : ToolResult SimilarOutput :=
  if !(truthyS args.nctId && isValidNctId (args.nctId.getD "")) then
    ToolResult.clientError "Valid NCT ID is required (format: NCT########)"
  else
    match refResp with
    | UpstreamResp.fail m => ToolResult.errorResult ("Clinical Trials API error: " ++ m)
    | UpstreamResp.ok [] _ =>
      ToolResult.errorResult ("Reference study not found: " ++ args.nctId.getD "")
    | UpstreamResp.ok (ref :: _) _ =>
      match second (similaritySearchParams args ref) with
      | UpstreamResp.fail m => ToolResult.errorResult ("Clinical Trials API error: " ++ m)
      | UpstreamResp.ok studies total =>
        ToolResult.ok
          { refNctId := args.nctId.getD ""
            refTitle := ref.briefTitle
            similarityType := orDefaultS args.similarityType "CONDITION"
            totalCount := total
            resultsShown := ((studies.filter
              (fun st => st.nctId ≠ args.nctId.getD "")).map formatStudySummary).length
            similarStudies := (studies.filter
              (fun st => st.nctId ≠ args.nctId.getD "")).map formatStudySummary }

theorem take3_append_msg_ne (a b : String) :
    ("Reference study not found: " ++ a) ≠ ("Clinical Trials API error: " ++ b) := by
  intro h
  have h2 := congrArg (fun s => s.data.take 3) h
  simp only [String.data_append] at h2
  rw [List.take_append_of_le_length (by decide),
    List.take_append_of_le_length (by decide)] at h2
  exact absurd h2 (by decide)

/-- C6: with a well-formed identifier whose reference lookup succeeds with
zero studies, the similar-studies tool returns the not-found diagnostic
result, never the upstream-failure diagnostic and never a thrown error. -/
theorem similar_notFound_shape (args : SimilarArgs) (total : Nat)
    (second : List (String × ParamVal) → UpstreamResp)
    (hid : truthyS args.nctId = true)
    (hval : isValidNctId (args.nctId.getD "") = true) :
    handleGetSimilarStudies args (UpstreamResp.ok [] total) second =
      ToolResult.errorResult ("Reference study not found: " ++ args.nctId.getD "") ∧
    (∀ m, handleGetSimilarStudies args (UpstreamResp.ok [] total) second ≠
      ToolResult.errorResult ("Clinical Trials API error: " ++ m)) ∧
    (∀ m, handleGetSimilarStudies args (UpstreamResp.ok [] total) second ≠
      ToolResult.clientError m) := by
  have hcode : handleGetSimilarStudies args (UpstreamResp.ok [] total) second =
      ToolResult.errorResult ("Reference study not found: " ++ args.nctId.getD "") := by
    simp [handleGetSimilarStudies, hid, hval]
  refine ⟨hcode, ?_, ?_⟩
  · intro m h
    rw [hcode] at h
    have := ToolResult.errorResult.inj h
    exact absurd this (take3_append_msg_ne _ m)
  · intro m h
    rw [hcode] at h
    exact ToolResult.noConfusion h

theorem similar_notFound_shape_witness :
    handleGetSimilarStudies ⟨some "NCT00000419", none, none⟩ (UpstreamResp.ok [] 0)
      (fun _ => UpstreamResp.ok [] 0) =
    ToolResult.errorResult ("Reference study not found: " ++ "NCT00000419") :=
  (similar_notFound_shape ⟨some "NCT00000419", none, none⟩ 0
    (fun _ => UpstreamResp.ok [] 0) (by decide) (by decide)).1

theorem optStr_eq_nil (k : String) (o : Option String) (h : truthyS o = false) :
    optStr k o = [] := by
  cases o with
  | none => rfl
  | some t =>
    simp only [truthyS, ne_eq, decide_not, Bool.not_eq_false', decide_eq_true_eq] at h
    simp [optStr, h]

/-- The field the similarity switch would read is absent (per JS truthiness)
on the reference record. -/
def selectedFieldAbsent (simType : String) (ref : Study) : Bool :=
  if simType = "CONDITION" then !truthyS (ref.conditions.getD []).head?
  else if simType = "SPONSOR" then !truthyS (ref.leadSponsor.map (fun sp => sp.name))
  else if simType = "PHASE" then !truthyS (ref.phases.getD []).head?
  else false

theorem similarityExtraParams_eq_nil (simType : String) (ref : Study)
    (habs : selectedFieldAbsent simType ref = true) :
    similarityExtraParams simType ref = [] := by
  unfold selectedFieldAbsent at habs
  unfold similarityExtraParams
  by_cases h1 : simType = "CONDITION"
  · rw [if_pos h1] at habs ⊢
    exact optStr_eq_nil _ _ (by simpa using habs)
  · rw [if_neg h1] at habs ⊢
    by_cases h2 : simType = "SPONSOR"
    · rw [if_pos h2] at habs ⊢
      exact optStr_eq_nil _ _ (by simpa using habs)
    · rw [if_neg h2] at habs ⊢
      by_cases h3 : simType = "PHASE"
      · rw [if_pos h3] at habs ⊢
        exact optStr_eq_nil _ _ (by simpa using habs)
      · rw [if_neg h3] at habs
        exact absurd habs (by simp)

/-- C7: when the field selected by the similarity type is absent on the
reference record, the secondary query is exactly the base `format` +
`pageSize` query — the similarity parameter is omitted, no parameter
carries an empty-string value, and the call proceeds to the secondary
request without raising an error. -/
theorem similarity_absent_field_param_omitted (args : SimilarArgs) (ref : Study)
    (habs : selectedFieldAbsent (orDefaultS args.similarityType "CONDITION") ref = true)
    (hid : truthyS args.nctId = true)
    (hval : isValidNctId (args.nctId.getD "") = true) :
    similaritySearchParams args ref =
      [("format", ParamVal.str "json"),
       ("pageSize", ParamVal.num (pageSizeOrDefault args.pageSize))] ∧
    (∀ kv ∈ similaritySearchParams args ref, kv.2 ≠ ParamVal.str "") ∧
    (∀ (studies2 : List Study) (total2 : Nat), ∃ out,
      handleGetSimilarStudies args (UpstreamResp.ok [ref] 1)
        (fun _ => UpstreamResp.ok studies2 total2) = ToolResult.ok out) := by
  have hparams : similaritySearchParams args ref =
      [("format", ParamVal.str "json"),
       ("pageSize", ParamVal.num (pageSizeOrDefault args.pageSize))] := by
    unfold similaritySearchParams
    rw [similarityExtraParams_eq_nil _ _ habs]
    simp
  refine ⟨hparams, ?_, ?_⟩
  · intro kv hkv
    rw [hparams] at hkv
    simp only [List.mem_cons, List.not_mem_nil, or_false] at hkv
    rcases hkv with h | h
    · subst h; simp
    · subst h; simp
  · intro studies2 total2
    refine ⟨{ refNctId := args.nctId.getD ""
              refTitle := ref.briefTitle
              similarityType := orDefaultS args.similarityType "CONDITION"
              totalCount := total2
              resultsShown := ((studies2.filter
                (fun st => st.nctId ≠ args.nctId.getD "")).map formatStudySummary).length
              similarStudies := (studies2.filter
                (fun st => st.nctId ≠ args.nctId.getD "")).map formatStudySummary }, ?_⟩
    simp [handleGetSimilarStudies, hid, hval]

/-- A reference record with no sponsor module at all. -/
def studyNoSponsor : Study :=
  { studyNoEligibility with nctId := "NCT00000004" }

theorem similarity_absent_field_param_omitted_witness :
    similaritySearchParams ⟨some "NCT00000419", some "SPONSOR", none⟩ studyNoSponsor =
      [("format", ParamVal.str "json"), ("pageSize", ParamVal.num 10)] :=
  (similarity_absent_field_param_omitted ⟨some "NCT00000419", some "SPONSOR", none⟩
    studyNoSponsor (by decide) (by decide) (by decide)).1

/-- C10: the similarity switch has no case for INTERVENTION (a value the
tool's input schema accepts), so the secondary query carries only `format`
and `pageSize` — an unconstrained search — and the call succeeds with the
fetched page minus the reference study, not an error. -/
theorem similarity_intervention_unconstrained (args : SimilarArgs) (ref : Study)
    (hty : args.similarityType = some "INTERVENTION")
    (hid : truthyS args.nctId = true)
    (hval : isValidNctId (args.nctId.getD "") = true) :
    similaritySearchParams args ref =
      [("format", ParamVal.str "json"),
       ("pageSize", ParamVal.num (pageSizeOrDefault args.pageSize))] ∧
    (∀ (studies2 : List Study) (total2 : Nat),
      handleGetSimilarStudies args (UpstreamResp.ok [ref] 1)
        (fun _ => UpstreamResp.ok studies2 total2) =
      ToolResult.ok
        { refNctId := args.nctId.getD ""
          refTitle := ref.briefTitle
          similarityType := "INTERVENTION"
          totalCount := total2
          resultsShown := ((studies2.filter
            (fun st => st.nctId ≠ args.nctId.getD "")).map formatStudySummary).length
          similarStudies := (studies2.filter
            (fun st => st.nctId ≠ args.nctId.getD "")).map formatStudySummary }) := by
  have hsim : orDefaultS args.similarityType "CONDITION" = "INTERVENTION" := by
    rw [hty]
    decide
  have hparams : similaritySearchParams args ref =
      [("format", ParamVal.str "json"),
       ("pageSize", ParamVal.num (pageSizeOrDefault args.pageSize))] := by
    unfold similaritySearchParams
    rw [hsim]
    simp [similarityExtraParams]
  refine ⟨hparams, ?_⟩
  intro studies2 total2
  simp [handleGetSimilarStudies, hid, hval, hsim]

theorem similarity_intervention_unconstrained_witness :
    similaritySearchParams ⟨some "NCT00000419", some "INTERVENTION", none⟩
      studyThreeCountries =
      [("format", ParamVal.str "json"), ("pageSize", ParamVal.num 10)] :=
  (similarity_intervention_unconstrained ⟨some "NCT00000419", some "INTERVENTION", none⟩
    studyThreeCountries rfl (by decide) (by decide)).1

/-- C8: the identifier validator accepts a string iff it is the fixed
prefix `NCT` followed by exactly 8 decimal digits (hence 11 characters in
total, rejecting any other length or a non-digit suffix); and an invalid
identifier makes both identifier-taking tools raise the client error
whatever the network oracle would answer — no request is needed. -/
theorem nctId_validator_correct (s : String) :
    (isValidNctId s = true ↔
      ∃ ds, s.data = ['N', 'C', 'T'] ++ ds ∧ ds.length = 8 ∧
        ∀ c ∈ ds, c.isDigit = true) ∧
    (isValidNctId s = true → s.length = 11) ∧
    (∀ (resp : UpstreamResp), isValidNctId s = false →
      handleGetStudyDetails ⟨some s⟩ resp =
        ToolResult.clientError "Valid NCT ID is required (format: NCT########)") ∧
    (∀ (simT : Option String) (ps : Option Int) (refResp : UpstreamResp)
        (second : List (String × ParamVal) → UpstreamResp), isValidNctId s = false →
      handleGetSimilarStudies ⟨some s, simT, ps⟩ refResp second =
        ToolResult.clientError "Valid NCT ID is required (format: NCT########)") := by
  have hiff : isValidNctId s = true ↔
      ∃ ds, s.data = ['N', 'C', 'T'] ++ ds ∧ ds.length = 8 ∧
        ∀ c ∈ ds, c.isDigit = true := by
    constructor
    · intro h
      unfold isValidNctId at h
      split at h
      case h_1 rest heq =>
        simp only [Bool.and_eq_true, beq_iff_eq, List.all_eq_true] at h
        exact ⟨rest, heq, h.1, h.2⟩
      case h_2 => exact absurd h (by simp)
    · rintro ⟨ds, hd, hlen, hdig⟩
      unfold isValidNctId
      rw [hd]
      show (ds.length == 8 && ds.all Char.isDigit) = true
      simp only [Bool.and_eq_true, beq_iff_eq, List.all_eq_true]
      exact ⟨hlen, hdig⟩
  refine ⟨hiff, ?_, ?_, ?_⟩
  · intro h
    obtain ⟨ds, hd, hlen, -⟩ := hiff.mp h
    show s.data.length = 11
    rw [hd]
    simp [hlen]
  · intro resp hinv
    simp [handleGetStudyDetails, hinv]
  · intro simT ps refResp second hinv
    simp [handleGetSimilarStudies, hinv]

theorem nctId_validator_correct_witness :
    (handleGetStudyDetails ⟨some "NCT123"⟩ (UpstreamResp.ok [] 0) =
      ToolResult.clientError "Valid NCT ID is required (format: NCT########)") ∧
    (handleGetSimilarStudies ⟨some "NCT123", none, none⟩ (UpstreamResp.ok [] 0)
        (fun _ => UpstreamResp.ok [] 0) =
      ToolResult.clientError "Valid NCT ID is required (format: NCT########)") ∧
    isValidNctId "NCT00000419" = true ∧
    "NCT00000419".length = 11 :=
  ⟨(nctId_validator_correct "NCT123").2.2.1 (UpstreamResp.ok [] 0) (by decide),
   (nctId_validator_correct "NCT123").2.2.2 none none (UpstreamResp.ok [] 0)
     (fun _ => UpstreamResp.ok [] 0) (by decide),
   (nctId_validator_correct "NCT00000419").1.mpr
     ⟨['0', '0', '0', '0', '0', '4', '1', '9'], by decide, by decide, by decide⟩,
   (nctId_validator_correct "NCT00000419").2.1
     ((nctId_validator_correct "NCT00000419").1.mpr
       ⟨['0', '0', '0', '0', '0', '4', '1', '9'], by decide, by decide, by decide⟩)⟩

end ClinicalTrials
